import Mathlib

/-!
# Verification of the Manthan Creator Suite backend

A shallow embedding, in Lean 4, of the Python backend of the
`manthan-creator-suite` repository, together with theorems settling the
specification claims about it.

Source files embedded:
* `backend/app.py` — the primary FastAPI service (auth, projects, pitch
  generation, staged generation and choice), namespace `Manthan.Backend`;
* `backend/app_stages.py` — an alternative stage router with a static
  stage-progression map, namespace `Manthan.Stages`;
* `backend/ai_orchestrator.py` — the candidate splitter, namespace
  `Manthan.Orchestrator`;
* `manthan_v0_2_1/backend/app/main.py` — the v0.2.1 revision of the
  service (quality gate, local templates, autosave), namespace
  `Manthan.V021`.

External effects are modelled as explicit inputs: the identity-token
verifier is a function `String → Option String` (token to uid), the
document store is an association list, the chat-completion endpoint is an
oracle indexed by call number, and uuid / document-id generation is a
supply passed in.  Machine-level concerns (JSON wire decoding, HTTP
transport) that no claim touches are abstracted behind those oracles;
everything a claim mentions is translated from the Python source.
-/

namespace Manthan

/-! ## Python string primitives

Implemented structurally over the character list of the string so that
every definition evaluates inside the kernel (the library versions recurse
on byte positions and do not reduce there).  Whitespace is the ASCII
whitespace of `Char.isWhitespace`, and lowercasing is `Char.toLower`;
the sources only ever feed these ASCII header text and model output. -/

/-- Python `s.lower()`. -/
def pyLower (s : String) : String := ⟨s.data.map Char.toLower⟩

/-- Python `s.startswith(p)`. -/
def pyStartsWith (s p : String) : Bool := p.data.isPrefixOf s.data

/-- Python `s.strip()`: drop leading and trailing whitespace. -/
def pyStrip (s : String) : String :=
  ⟨((s.data.dropWhile Char.isWhitespace).reverse.dropWhile Char.isWhitespace).reverse⟩

/-- Accumulating splitter behind `pyWords`. -/
def pyWordsGo : List Char → List Char → List String
  | [], cur => if cur.isEmpty then [] else [⟨cur.reverse⟩]
  | c :: cs, cur =>
    if c.isWhitespace then
      if cur.isEmpty then pyWordsGo cs [] else ⟨cur.reverse⟩ :: pyWordsGo cs []
    else pyWordsGo cs (c :: cur)

/-- Python `str.split()` with no arguments: split on runs of whitespace and
drop empty pieces. -/
def pyWords (s : String) : List String := pyWordsGo s.data []

/-- Fuelled splitter behind `pySplitOn`; the fuel starts at the length of
the subject, which the remaining subject never exceeds, so the fuel-zero
branch is unreachable. -/
def pySplitGo (sep : List Char) : Nat → List Char → List (List Char)
  | _, [] => [[]]
  | 0, l => [l]
  | fuel + 1, c :: cs =>
    if ¬ sep.isEmpty ∧ sep.isPrefixOf (c :: cs) then
      [] :: pySplitGo sep fuel (List.drop (sep.length - 1) cs)
    else
      match pySplitGo sep fuel cs with
      | [] => [[c]]
      | w :: ws => (c :: w) :: ws

/-- Python `s.split(sep)` for a non-empty separator. -/
def pySplitOn (s sep : String) : List String :=
  (pySplitGo sep.data s.data.length s.data).map (fun w => ⟨w⟩)

/-- Python truthiness of an `Optional[str]` value: `None` and the empty
string are falsy, every other string is truthy. -/
def strOptTruthy : Option String → Bool
  | none => false
  | some s => s ≠ ""

/-- Python `x or default` on an `Optional[str]`: the value when truthy,
otherwise the default. -/
def pyOrStr (o : Option String) (d : String) : String :=
  match o with
  | some s => if s ≠ "" then s else d
  | none => d

/-- Decidable equality of `Except` results, used to compare handler
outcomes on concrete inputs. -/
instance {ε α : Type} [DecidableEq ε] [DecidableEq α] : DecidableEq (Except ε α) := fun x y =>
  match x, y with
  | .error a, .error b =>
    if h : a = b then .isTrue (by rw [h]) else .isFalse (by simp [h])
  | .ok a, .ok b =>
    if h : a = b then .isTrue (by rw [h]) else .isFalse (by simp [h])
  | .error _, .ok _ => .isFalse (by simp)
  | .ok _, .error _ => .isFalse (by simp)

namespace Backend

/-! ## backend/app.py — data model -/

/-- Request body of `POST /api/projects` (`class ProjectIn`).  The pydantic
length bounds on `title` and `logline` are request validation performed
before the handler runs and are not needed by any claim. -/
structure ProjectIn where
  title : String
  logline : String
  genre : Option String := none
  tone : Option String := none
  creator_name : Option String := none
deriving DecidableEq, Repr

/-- Stored project document (`class Project` minus the `id`, i.e. the dict
held by Firestore).  A document whose `owner_uid` field is absent and one
whose field is `None` both deserialize to `none`, matching the pydantic
default. -/
structure ProjectData extends ProjectIn where
  owner_uid : Option String := none
deriving DecidableEq, Repr

/-- `class Project`: a stored document together with its Firestore id. -/
structure Project extends ProjectIn where
  id : String
  owner_uid : Option String := none
deriving DecidableEq, Repr

/-- The `projects` Firestore collection, as an association list from
document id to document data.  Firestore ids are unique; `List.lookup`
returns the first binding. -/
abbrev ProjectStore := List (String × ProjectData)

/-- `_doc_to_project`: rebuild a `Project` from a snapshot. -/
def _doc_to_project (docId : String) (d : ProjectData) : Project :=
  { toProjectIn := d.toProjectIn, id := docId, owner_uid := d.owner_uid }

/-! ## backend/app.py — authentication (`get_uid`) -/

/-- The Firebase token verifier `fb_auth.verify_id_token`, abstracted as a
partial map from token to decoded uid; `none` means verification raises. -/
abbrev Verifier := String → Option String

/-- `get_uid`: the bearer-token dependency.  Returns the decoded uid or an
HTTP status (always 401).  Mirrors the source: a missing header or one
whose lowercasing does not start with `"bearer "` is rejected; otherwise
the text after the first space is stripped and verified.  (Inside the
else-branch the header necessarily contains a space, so the `split(" ", 1)[1]`
indexing of the source cannot fail.) -/
def get_uid (verify : Verifier) (authorization : Option String) : Except Nat String :=
  match authorization with
  | none => .error 401
  | some a =>
    if ¬ (pyStartsWith (pyLower a) "bearer ") then .error 401
    else
      let token := pyStrip (String.intercalate " " ((pySplitOn a " ").drop 1))
      match verify token with
      | some uid => .ok uid
      | none => .error 401

/-- The token that `get_uid` extracts from a present header. -/
def headerToken (a : String) : String :=
  pyStrip (String.intercalate " " ((pySplitOn a " ").drop 1))

/-! ## backend/app.py — ownership check -/

/-- `_get_project_for_owner`: 404 when the document does not exist, 403 when
its `owner_uid` is truthy and differs from the caller, otherwise the
project. -/
def _get_project_for_owner (store : ProjectStore) (project_id uid : String) :
    Except Nat Project :=
  match store.lookup project_id with
  | none => .error 404
  | some d =>
    let p := _doc_to_project project_id d
    if strOptTruthy p.owner_uid && (p.owner_uid != some uid) then .error 403
    else .ok p

/-! ## backend/app.py — stage data model -/

/-- The `StageName` literal type:
`Literal["outline", "onepager", "screenplay", "script", "dialogue"]`.
Request validation guarantees the field is one of the five strings, which
the inductive captures exactly. -/
inductive StageName where
  | outline | onepager | screenplay | script | dialogue
deriving DecidableEq, Repr

/-- The string carried by a `StageName` value. -/
def StageName.str : StageName → String
  | .outline => "outline"
  | .onepager => "onepager"
  | .screenplay => "screenplay"
  | .script => "script"
  | .dialogue => "dialogue"

/-- The `meta` dict attached to a candidate, `{"engine": body.engine}`,
embedded as its single `engine` entry. -/
structure CandMeta where
  engine : Option String := none
deriving DecidableEq, Repr

/-- `class Candidate`. -/
structure Candidate where
  id : String
  text : String
  meta : Option CandMeta := none
deriving DecidableEq, Repr

/-- The `chosen` map written by `stage_choose`. -/
structure ChosenDoc where
  id : String
  text : String
  meta : Option CandMeta := none
deriving DecidableEq, Repr

/-- A document of the `stages` subcollection.  `updated_at` is a
server-side timestamp and is omitted.  A field absent from the stored dict
is its default here (`data.get("last_generated", [])` reads `[]`). -/
structure StageDoc where
  last_generated : List Candidate := []
  engine : Option String := none
  language : String := "en"
  tweak : String := ""
  chosen : Option ChosenDoc := none
deriving DecidableEq, Repr

/-- The `stages` subcollections of all projects, keyed by
(project id, stage string). -/
abbrev StageStore := List ((String × String) × StageDoc)

/-- Firestore `set(..., merge=True)` on a stage document: update the fields
of the existing document, or create one (all other fields at their
defaults) when none exists. -/
def setMerge (stages : StageStore) (k : String × String) (f : StageDoc → StageDoc) :
    StageStore :=
  match stages with
  | [] => [(k, f {})]
  | e :: rest => if e.1 = k then (k, f e.2) :: rest else e :: setMerge rest k f

/-- `class StageGenerateRequest`. -/
structure StageGenerateRequest where
  project_id : String
  stage : StageName
  tweak : Option String := some ""
  engine : Option String := some "gpt-5-mini"
  language : Option String := some "en"
deriving DecidableEq, Repr

/-- `class StageChooseRequest`. -/
structure StageChooseRequest where
  project_id : String
  stage : StageName
  chosen_id : String
  edits : Option String := some ""
deriving DecidableEq, Repr

/-! ## backend/app.py — engine map and chat-completion calls -/

/-- The environment overrides read into `ENGINE_MAP` at import time, with
the defaults of the source. -/
structure EngineEnv where
  gpt5_mini : String := "gpt-4o-mini"
  gpt5 : String := "gpt-4.1"
  lora : String := "gpt-4o-mini"
deriving DecidableEq, Repr

/-- `ENGINE_MAP`. -/
def ENGINE_MAP (env : EngineEnv) : List (String × String) :=
  [("gpt-5-mini", env.gpt5_mini), ("gpt-5", env.gpt5), ("manthan-lora", env.lora)]

/-- `_model_for_engine`: look the engine up, defaulting to the
`"gpt-5-mini"` entry. -/
def _model_for_engine (env : EngineEnv) (engine : String) : String :=
  ((ENGINE_MAP env).lookup engine).getD env.gpt5_mini

/-- One `client.chat.completions.create` call: everything the service
chooses about it.  (Each call sends exactly one system and one user
message.) -/
structure ChatCall where
  model : String
  system : String
  user : String
  temperature : ℚ
deriving DecidableEq, Repr

/-! ## backend/app.py — stage prompts -/

/-- `_stage_system_prompt`. -/
def _stage_system_prompt (stage : StageName) (language : String) : String :=
  let base := "You are Manthan, a professional film/series development assistant. " ++
    "Be concrete, cinematic, and market-aware. Avoid placeholders."
  let base := if language ≠ "" ∧ language ≠ "en" then
    base ++ " Respond in language code: " ++ language ++ "." else base
  let stage_note := match stage with
    | .outline => "Produce a tight outline with acts and clear turning points."
    | .onepager => "Write a compelling one-page synopsis for pitching."
    | .screenplay => "Write crisp scene beats (bulleted, visual)."
    | .script => "Write properly formatted script pages for a selected segment."
    | .dialogue => "Write dialogue passes with distinct voice and cultural texture."
  base ++ " " ++ stage_note

/-- `_stage_user_prompt`. -/
def _stage_user_prompt (stage : StageName) (p : Project) (tweak : String) : String :=
  let lines := [
    "TITLE: " ++ p.title,
    "LOGLINE: " ++ p.logline,
    "GENRE: " ++ pyOrStr p.genre "Drama",
    "TONE: " ++ pyOrStr p.tone "Grounded, character-driven",
    "INSTRUCTIONS:",
    "- Use culturally specific details; avoid generic phrasing.",
    "- Keep it production-ready."]
  let lines := if tweak ≠ "" then lines ++ ["STEERING_NOTE: " ++ tweak] else lines
  let extra := match stage with
    | .outline => "- 10–12 labeled beats across acts; 1–2 lines each."
    | .onepager => "- 4–6 paragraphs; strong arc and hook; no headings."
    | .screenplay => "- 10–14 beats; each is a visual moment, not prose."
    | .script => "- 1–2 pages of formatted script (INT/EXT, action, dialogue)."
    | .dialogue => "- 2–3 pages equivalent; crisp, characterful exchanges."
  String.intercalate "\n" (lines ++ [extra])

/-! ## backend/app.py — stage generate -/

/-- The outcome of one `POST /api/stage/generate` handler run: the
chat-completion calls issued, the HTTP response, and the stage store
afterwards. -/
structure StageGenOutcome where
  calls : List ChatCall
  response : Except Nat (List Candidate)
  stages : StageStore
deriving DecidableEq, Repr

/-- One iteration of the `for _ in range(3)` loop of `stage_generate`:
on a successful call append the stripped content (or the `"(empty)"`
marker), on an exception append nothing. -/
def stageGenStep (llm : Nat → Except String (Option String)) (acc : List String)
    (i : Nat) : List String :=
  match llm i with
  | .ok raw =>
    let content := pyStrip (raw.getD "")
    acc ++ [if content ≠ "" then content else "(empty)"]
  | .error _ => acc

/-- The `texts` accumulated by the three loop iterations of
`stage_generate` when a client is configured. -/
def stageGenTexts (llm : Nat → Except String (Option String)) : List String :=
  (List.range 3).foldl (stageGenStep llm) []

/-- `stage_generate`.  `clientReady` is whether `make_openai_client`
returned a client; `llm i` is what attempt `i` of
`chat.completions.create` yields (`.ok` the message content, possibly
absent, `.error` an exception message); `uuids` supplies the values of the
successive `uuid.uuid4()` draws. -/
def stage_generate (env : EngineEnv) (clientReady : Bool)
    (llm : Nat → Except String (Option String)) (uuids : Nat → String)
    (projects : ProjectStore) (stages : StageStore)
    (body : StageGenerateRequest) (uid : String) : StageGenOutcome :=
  match _get_project_for_owner projects body.project_id uid with
  | .error e => { calls := [], response := .error e, stages := stages }
  | .ok p =>
    let sys_prompt := _stage_system_prompt body.stage (pyOrStr body.language "en")
    let usr_prompt := _stage_user_prompt body.stage p (pyOrStr body.tweak "")
    let usr_prompt := if body.engine = some "manthan-lora" then
      usr_prompt ++ "\nFEW-SHOT STYLE SIGNALS:\n" ++
        "- Lean into Indian subcontinent texture and vernacular.\n" ++
        "- Keep choices under pressure; avoid generic phrasing.\n"
      else usr_prompt
    let call : ChatCall :=
      { model := _model_for_engine env (pyOrStr body.engine "gpt-5-mini"),
        system := sys_prompt, user := usr_prompt, temperature := 85/100 }
    -- The loop body always issues the call; an exception only skips the append.
    let calls := if clientReady then List.replicate 3 call else []
    let texts := if clientReady then stageGenTexts llm else []
    let texts := if texts = [] then
        ["[DEMO] " ++ body.stage.str ++ " draft for \x27" ++ p.title ++
          "\x27 — refine once LLM key is set."]
      else texts
    let cands := texts.enum.map (fun e =>
      { id := uuids e.1, text := e.2, meta := some ⟨body.engine⟩ })
    let stages := setMerge stages (body.project_id, body.stage.str) (fun d =>
      { d with last_generated := cands, engine := body.engine,
               language := pyOrStr body.language "en",
               tweak := pyOrStr body.tweak "" })
    let response : Except Nat (List Candidate) :=
      if cands.any (fun c => c.text = "(empty)") then .error 502 else .ok cands
    { calls := calls, response := response, stages := stages }

/-! ## backend/app.py — stage choose -/

/-- The outcome of one `POST /api/stage/choose` handler run. -/
structure ChooseOutcome where
  response : Except Nat (StageName × String)
  stages : StageStore
deriving DecidableEq, Repr

/-- `stage_choose`.  The success payload `{"ok": True, "stage": ...,
"chosen_id": ...}` is embedded as the pair of its non-constant fields. -/
def stage_choose (projects : ProjectStore) (stages : StageStore)
    (body : StageChooseRequest) (uid : String) : ChooseOutcome :=
  match _get_project_for_owner projects body.project_id uid with
  | .error e => { response := .error e, stages := stages }
  | .ok _ =>
    match stages.lookup (body.project_id, body.stage.str) with
    | none => { response := .error 400, stages := stages }
    | some data =>
      match data.last_generated.find? (fun c => c.id == body.chosen_id) with
      | none => { response := .error 404, stages := stages }
      | some chosen =>
        -- `chosen.get("text") or ""` is the candidate text itself: `text` is a
        -- string, and on the empty string the `or` still yields `""`.
        let chosen_text := if strOptTruthy body.edits then pyStrip (body.edits.getD "")
          else chosen.text
        let stages := setMerge stages (body.project_id, body.stage.str) (fun d =>
          { d with chosen := some ⟨body.chosen_id, chosen_text, chosen.meta⟩ })
        { response := .ok (body.stage, body.chosen_id), stages := stages }

/-! ## backend/app.py — project routes -/

/-- Insert a project into a title-sorted list (auxiliary for `order_by`). -/
def insertByTitle (p : Project) : List Project → List Project
  | [] => [p]
  | q :: qs => if p.title ≤ q.title then p :: q :: qs else q :: insertByTitle p qs

/-- The Firestore `order_by("title")` clause: sort the result set by title. -/
def orderByTitle : List Project → List Project
  | [] => []
  | p :: ps => insertByTitle p (orderByTitle ps)

/-- `list_projects`: the documents whose `owner_uid` field equals the
caller uid (the Firestore `where` equality filter), ordered by title. -/
def list_projects (store : ProjectStore) (uid : String) : List Project :=
  orderByTitle ((store.filter (fun e => e.2.owner_uid = some uid)).map
    (fun e => _doc_to_project e.1 e.2))

/-- `create_project`: write the payload, with `owner_uid` set to the
caller, under a fresh document id, and return the created project.
`freshId` is the id minted by `collection.document()`; it does not occur
in the store, so placing the binding first realizes the write. -/
def create_project (store : ProjectStore) (freshId : String) (payload : ProjectIn)
    (uid : String) : ProjectStore × Project :=
  let data : ProjectData := { toProjectIn := payload, owner_uid := some uid }
  ((freshId, data) :: store,
   { toProjectIn := payload, id := freshId, owner_uid := some uid })

/-! ## backend/app.py — pitch generation -/

/-- `class PitchRequest`. -/
structure PitchRequest where
  title : String
  logline : String
  genre : Option String := none
  tone : Option String := none
  engine : Option String := some "gpt-5-mini"
  language : Option String := some "en"
deriving DecidableEq, Repr

/-- `class PitchPack`. -/
structure PitchPack where
  title : String
  logline : String
  synopsis : String
  beat_sheet : List String
  deck_outline : List String
deriving DecidableEq, Repr

/-- The JSON object decoded from the model reply in `_call_llm_json`; each
key the handler reads, `none` when absent.  (Transport, code-fence
stripping and `json.loads` are abstracted: a reply that fails to decode is
the `.error` case of the oracle.) -/
structure PitchJson where
  title : Option String := none
  logline : Option String := none
  synopsis : Option String := none
  beat_sheet : Option (List String) := none
  deck_outline : Option (List String) := none
deriving DecidableEq, Repr

/-- `_pitch_system`. -/
def _pitch_system (language : String) : String :=
  let base := "You are Manthan, a professional Indian film/series development exec. " ++
    "Write culturally specific, cinematic, and market-aware material. " ++
    "Avoid placeholders and generic beats. Respect the given genre and tone. " ++
    "Prefer Indian settings, names, and vernacular when unspecified."
  if language ≠ "" ∧ language ≠ "en" then
    base ++ " Respond using language code: " ++ language ++ "." else base

/-- `_PITCH_JSON_INSTRUCTIONS`. -/
def _PITCH_JSON_INSTRUCTIONS : String :=
  "Return STRICT JSON with keys: title, logline, synopsis, beat_sheet (array of 10-12 items), " ++
  "deck_outline (array of 7-9 items). Do not include markdown or extra text."

/-- `_pitch_user_prompt`. -/
def _pitch_user_prompt (title logline genre tone : String) : String :=
  "TITLE: " ++ title ++ "\n" ++
  "LOGLINE: " ++ logline ++ "\n" ++
  "GENRE: " ++ genre ++ "\n" ++
  "TONE: " ++ tone ++ "\n" ++
  "TASK: Create a pitch pack that would excite Indian OTT buyers. " ++
  "Keep the synopsis 180–260 words, with a clear arc and hook. " ++
  "Beat sheet should be specific, visual, and motivated by character choices. " ++
  "Deck outline should be practical for a sales deck in India (audience, comps, lookbook, etc.).\n" ++
  _PITCH_JSON_INSTRUCTIONS

/-- The deterministic fallback pitch pack of `generate_pitch` (the literal
template of the source, interpolating the four request fields). -/
def fallbackPitch (title logline genre tone : String) : PitchPack :=
  { title := title, logline := logline,
    synopsis :=
      "**" ++ title ++ "** is a " ++ pyLower genre ++
      " set against an Indian backdrop, told with a " ++ pyLower tone ++ " tone. " ++
      "It centers on: " ++ logline ++ ". We enter through a vivid everyday image, pivot into a catalytic choice, " ++
      "and end with a payoff that feels surprising yet earned for the audience you’d find on today’s OTTs.",
    beat_sheet := [
      "Opening Image — a concrete slice of life that hints at the core contradiction",
      "Theme Stated — a line or beat that foreshadows the inner journey",
      "Catalyst — an external jolt that forces a decision",
      "Debate — resist or leap; cost becomes clear",
      "Break into Two — choice made; world tilts",
      "First Sequence Wins/Losses — initial plan meets reality",
      "Midpoint — truth revealed; stakes escalate",
      "Bad Guys Close In — pressure from all sides",
      "All Is Lost — protagonist faces core fear",
      "Break into Three — synthesis and new plan",
      "Finale — decisive action with character change visible",
      "Final Image — mirrors the opening, now transformed"],
    deck_outline := [
      "Cover: Title, logline, key art",
      "Why Now / Audience: who it’s for, platform fit",
      "World & Characters: 3–5 leads with arcs",
      "Story: 1‑page synopsis + 10–12 beats",
      "Lookbook: tone, palette, visual comps (India‑specific)",
      "Market & Comps: recent Indian shows/films it sits beside",
      "Team & Attachments",
      "Production Notes: format, runtime, language(s)",
      "Next Steps: outreach plan, budget roughs"] }

/-- The outcome of one `POST /api/pitch/generate` handler run. -/
structure PitchOutcome where
  calls : List ChatCall
  response : Except Nat PitchPack
deriving DecidableEq, Repr

/-- `generate_pitch`.  `clientReady` is whether `make_openai_client`
returned a client; `llmJson` is the decoded JSON of the single
`_call_llm_json` call, `.error` when the call or the decode raised (the
502 path). -/
def generate_pitch (env : EngineEnv) (clientReady : Bool)
    (llmJson : Except String PitchJson) (payload : PitchRequest) : PitchOutcome :=
  let title := pyStrip payload.title
  let logline := pyStrip payload.logline
  let genre := pyStrip (pyOrStr payload.genre "Drama")
  let tone := pyStrip (pyOrStr payload.tone "Grounded, character-driven")
  let engine := pyOrStr payload.engine "gpt-5-mini"
  let language := pyOrStr payload.language "en"
  if clientReady then
    let system := _pitch_system language
    let user := _pitch_user_prompt title logline genre tone
    let user := if engine = "manthan-lora" then
      user ++ "\nSTYLE NOTES: Lean into Indic texture (names, food, festivals, class dynamics). " ++
        "Use concrete Mumbai/Chennai/Hyderabad locales if unspecified. Avoid clichés."
      else user
    let call : ChatCall :=
      { model := _model_for_engine env engine, system := system, user := user,
        temperature := 8/10 }
    match llmJson with
    | .error _ => { calls := [call], response := .error 502 }
    | .ok data =>
      -- `data["synopsis"]` etc. raise `KeyError` when absent; the except
      -- branch then falls through to the deterministic template.
      match data.synopsis, data.beat_sheet, data.deck_outline with
      | some syn, some bs, some dk =>
        { calls := [call],
          response := .ok
            { title := data.title.getD title, logline := data.logline.getD logline,
              synopsis := syn, beat_sheet := bs, deck_outline := dk } }
      | _, _, _ =>
        { calls := [call], response := .ok (fallbackPitch title logline genre tone) }
  else
    { calls := [], response := .ok (fallbackPitch title logline genre tone) }

/-! ## backend/app.py — the gated endpoints

Each route below takes `uid: str = Depends(get_uid)`: FastAPI runs
`get_uid` on the `Authorization` header first and an `HTTPException`
raised there is the response, the handler body never running.  The
wrappers make that dispatch explicit, exposing the resulting state and
the chat-completion calls issued so that absence of persistence and of
generation on auth failure is a theorem. -/

/-- The mutable state of the service: both Firestore collections. -/
structure ServiceState where
  projects : ProjectStore
  stages : StageStore
deriving DecidableEq, Repr

/-- Response, post-state and issued calls of one request. -/
structure ApiOutcome (α : Type) where
  response : Except Nat α
  state : ServiceState
  calls : List ChatCall
deriving DecidableEq, Repr

/-- `GET /api/projects` with its auth dependency. -/
def api_list_projects (verify : Verifier) (auth : Option String)
    (st : ServiceState) : ApiOutcome (List Project) :=
  match get_uid verify auth with
  | .error e => { response := .error e, state := st, calls := [] }
  | .ok uid => { response := .ok (list_projects st.projects uid), state := st, calls := [] }

/-- `POST /api/projects` with its auth dependency. -/
def api_create_project (verify : Verifier) (auth : Option String) (freshId : String)
    (payload : ProjectIn) (st : ServiceState) : ApiOutcome Project :=
  match get_uid verify auth with
  | .error e => { response := .error e, state := st, calls := [] }
  | .ok uid =>
    let r := create_project st.projects freshId payload uid
    { response := .ok r.2, state := { st with projects := r.1 }, calls := [] }

/-- `POST /api/pitch/generate` with its auth dependency. -/
def api_generate_pitch (verify : Verifier) (auth : Option String) (env : EngineEnv)
    (clientReady : Bool) (llmJson : Except String PitchJson) (payload : PitchRequest)
    (st : ServiceState) : ApiOutcome PitchPack :=
  match get_uid verify auth with
  | .error e => { response := .error e, state := st, calls := [] }
  | .ok _uid =>
    let r := generate_pitch env clientReady llmJson payload
    { response := r.response, state := st, calls := r.calls }

/-- `POST /api/stage/generate` with its auth dependency. -/
def api_stage_generate (verify : Verifier) (auth : Option String) (env : EngineEnv)
    (clientReady : Bool) (llm : Nat → Except String (Option String))
    (uuids : Nat → String) (body : StageGenerateRequest) (st : ServiceState) :
    ApiOutcome (List Candidate) :=
  match get_uid verify auth with
  | .error e => { response := .error e, state := st, calls := [] }
  | .ok uid =>
    let r := stage_generate env clientReady llm uuids st.projects st.stages body uid
    { response := r.response, state := { st with stages := r.stages }, calls := r.calls }

/-- `POST /api/stage/choose` with its auth dependency. -/
def api_stage_choose (verify : Verifier) (auth : Option String)
    (body : StageChooseRequest) (st : ServiceState) : ApiOutcome (StageName × String) :=
  match get_uid verify auth with
  | .error e => { response := .error e, state := st, calls := [] }
  | .ok uid =>
    let r := stage_choose st.projects st.stages body uid
    { response := r.response, state := { st with stages := r.stages }, calls := [] }

end Backend

namespace Stages

/-! ## backend/app_stages.py — the stage-progression router

This revision stores projects as raw dicts in the `projects` collection
and advances a `stage` string field through a static map.  Only the
fields its handlers read are modelled. -/

/-- A project document as this router reads it: its `owner_uid` and
`stage` fields (absent fields read as `None` through `dict.get`). -/
structure ProjRec where
  owner_uid : Option String := none
  stage : Option String := none
deriving DecidableEq, Repr

/-- The `projects` collection. -/
abbrev Db := List (String × ProjRec)

/-- `class ChooseIn`. -/
structure ChooseIn where
  project_id : String
  stage : Backend.StageName
  chosen_id : String
  edits : Option String := none
deriving DecidableEq, Repr

/-- `next_stage_map`: the static map driving stage progression (the source
dict, in its textual order). -/
def next_stage_map : List (String × String) :=
  [("outline", "onepager"),
   ("onepager", "screenplay"),
   ("screenplay", "script"),
   ("script", "dialogue"),
   ("dialogue", "final")]

/-- `doc_ref.update({"stage": ...})`: overwrite the `stage` field of the
named document. -/
def setStageField (db : Db) (pid newStage : String) : Db :=
  match db with
  | [] => []
  | e :: rest =>
    if e.1 = pid then (e.1, { e.2 with stage := some newStage }) :: rest
    else e :: setStageField rest pid newStage

/-- The outcome of one `POST /api/stage/choose` run of this router; the
success payload `{"ok": True, "next": ...}` is embedded as its `next`
string. -/
structure ChooseStageOutcome where
  response : Except Nat String
  db : Db
deriving DecidableEq, Repr

/-- `choose_stage`: 404 when the document is missing or its `owner_uid`
differs from the caller; otherwise advance the `stage` field through
`next_stage_map` (the request stage, being one of the five literals, is
always a key) and answer with the successor. -/
def choose_stage (db : Db) (payload : ChooseIn) (uid : String) : ChooseStageOutcome :=
  match db.lookup payload.project_id with
  | none => { response := .error 404, db := db }
  | some d =>
    if d.owner_uid ≠ some uid then { response := .error 404, db := db }
    else
      let s := payload.stage.str
      match next_stage_map.lookup s with
      | some nxt =>
        { response := .ok nxt, db := setStageField db payload.project_id nxt }
      | none => { response := .ok "final", db := db }

end Stages

namespace Orchestrator

/-! ## backend/ai_orchestrator.py — the candidate splitter -/

/-- A candidate dict produced by `_parse_three`; its `meta` is always the
empty dict and is omitted. -/
structure ParsedCand where
  id : String
  text : String
deriving DecidableEq, Repr

/-- `_parse_three`: split the reply on blank lines, strip each piece, drop
the empty ones, keep the first three, and label them `opt1..opt3` with a
uuid-hex suffix (`hexes i` supplies the `uuid4().hex[:6]` draw of piece
`i`). -/
def _parse_three (hexes : Nat → String) (text : String) : List ParsedCand :=
  let parts := ((pySplitOn text "\n\n").map pyStrip).filter (fun p => p ≠ "")
  (parts.take 3).enum.map (fun e =>
    { id := "opt" ++ toString (e.1 + 1) ++ "-" ++ hexes e.1, text := e.2 })

end Orchestrator

namespace V021

/-! ## manthan_v0_2_1/backend/app/main.py — the v0.2.1 revision -/

/-- `class IdeaInput`. -/
structure IdeaInput where
  title : String
  logline : String
  genre : Option String := none
  tone : Option String := none
deriving DecidableEq, Repr

/-- `local_outline`. -/
def local_outline (logline : String) : List String :=
  ["Act 1 — Inciting incident tied to: " ++ logline,
   "Act 2 — Reversals & midpoint dilemma",
   "Act 3 — Climax & resolution with emotional payoff"]

/-- `local_one_pager`. -/
def local_one_pager (title logline : String) : String :=
  "Title: " ++ title ++ "\n\nLogline: " ++ logline ++ "\n\n" ++
  "Summary: In a world that mirrors contemporary India, our protagonist faces a choice " ++
  "between duty and desire, escalating through culturally grounded stakes."

/-- `local_deck`. -/
def local_deck : List String :=
  ["Cover", "Logline", "Synopsis", "Characters", "World", "Season Arc", "Why now?"]

/-- The dict returned by `quality_gate`. -/
structure Quality where
  score : Nat
  label : String
  reasons : List String
deriving DecidableEq, Repr

/-- `quality_gate`, translated check by check in source order. -/
def quality_gate (idea : IdeaInput) (outline : List String) (one_pager : String) :
    Quality :=
  let sr : Nat × List String := (0, [])
  let sr := if idea.title ≠ "" ∧ 3 ≤ idea.title.length then (sr.1 + 20, sr.2)
    else (sr.1, sr.2 ++ ["Title too short"])
  let sr := if idea.logline ≠ "" ∧ 10 ≤ (pyWords idea.logline).length then (sr.1 + 25, sr.2)
    else (sr.1, sr.2 ++ ["Logline needs more detail (>=10 words)"])
  let sr := if strOptTruthy idea.genre then (sr.1 + 15, sr.2)
    else (sr.1, sr.2 ++ ["No genre provided"])
  let sr := if strOptTruthy idea.tone then (sr.1 + 10, sr.2)
    else (sr.1, sr.2 ++ ["No tone provided"])
  let sr := if 3 ≤ outline.length then (sr.1 + 15, sr.2)
    else (sr.1, sr.2 ++ ["Outline should have at least 3 beats"])
  let sr := if 60 ≤ (pyWords one_pager).length then (sr.1 + 15, sr.2)
    else (sr.1, sr.2 ++ ["One-pager is very short"])
  let label := if 80 ≤ sr.1 then "Strong" else if 60 ≤ sr.1 then "Decent" else "Needs work"
  { score := sr.1, label := label, reasons := sr.2 }

/-- The checks of `quality_gate` as one fixed list of
(weight, passes, failure reason) triples, in source order. -/
def quality_checks (idea : IdeaInput) (outline : List String) (one_pager : String) :
    List (Nat × Bool × String) :=
  [(20, decide (idea.title ≠ "" ∧ 3 ≤ idea.title.length), "Title too short"),
   (25, decide (idea.logline ≠ "" ∧ 10 ≤ (pyWords idea.logline).length),
     "Logline needs more detail (>=10 words)"),
   (15, strOptTruthy idea.genre, "No genre provided"),
   (10, strOptTruthy idea.tone, "No tone provided"),
   (15, decide (3 ≤ outline.length), "Outline should have at least 3 beats"),
   (15, decide (60 ≤ (pyWords one_pager).length), "One-pager is very short")]

/-- Sum of the weights of the passing checks. -/
def checklistScore (checks : List (Nat × Bool × String)) : Nat :=
  ((checks.filter (fun c => c.2.1)).map (fun c => c.1)).sum

/-- Failure reasons of the failing checks, in order. -/
def checklistReasons (checks : List (Nat × Bool × String)) : List String :=
  (checks.filter (fun c => ¬ c.2.1)).map (fun c => c.2.2)

/-- The JSON object decoded from the model reply in `try_model_generate`;
the `str(x)` coercion of list items is subsumed by the typed fields. -/
structure ModelJson where
  outline : Option (List String) := none
  one_pager : Option String := none
  deck_outline : Option (List String) := none
deriving DecidableEq, Repr

/-- `try_model_generate`.  `use_model` and `has_key` are the `USE_MODEL`
and `OPENAI_API_KEY` environment switches; `chat` is the single
chat-completion call together with its JSON decode, `.error` when
anything in the `try` block raised (the silent-fallback path). -/
def try_model_generate (use_model has_key : Bool) (chat : Except String ModelJson) :
    Option (List String × String × List String) :=
  if ¬ (use_model ∧ has_key) then none
  else
    match chat with
    | .error _ => none
    | .ok data =>
      let outline := (data.outline.getD []).take 8
      let one_pager := pyOrStr data.one_pager ""
      let deck := (data.deck_outline.getD []).take 12
      some (outline, one_pager, deck)

/-- The payload written to the `pitch_packs` collection by
`autosave_pitchpack`. -/
structure SavedDoc where
  idea : IdeaInput
  outline : List String
  one_pager : String
  deck_outline : List String
  quality : Quality
  updated_at : Nat
  created_at : Option Nat
deriving DecidableEq, Repr

/-- `autosave_pitchpack`.  `autosaveOn` is the `AUTOSAVE` switch; `fs` is
`none` when the Firestore client or the write raises (errors are
swallowed, returning `None`) and otherwise carries the id minted by
`col.document()`; `now` is `int(time.time())`.  Returns the written
document with its id, or `none` when nothing was saved. -/
def autosave_pitchpack (autosaveOn : Bool) (fs : Option String) (now : Nat)
    (project_id : Option String) (idea : IdeaInput) (outline : List String)
    (one_pager : String) (deck : List String) (q : Quality) :
    Option (String × SavedDoc) :=
  if ¬ autosaveOn then none
  else
    match fs with
    | none => none
    | some minted =>
      let docId := match project_id with
        | none => minted
        | some pid => pid
      some (docId,
        { idea := idea, outline := outline, one_pager := one_pager,
          deck_outline := deck, quality := q, updated_at := now,
          created_at := if project_id.isNone then some now else none })

/-- `class PitchPack` of this revision. -/
structure V021PitchPack where
  outline : List String
  one_pager : String
  deck_outline : List String
  quality : Quality
  doc_id : Option String := none
deriving DecidableEq, Repr

/-- The outcome of one v0.2.1 `POST /api/pitch/generate` run: the response
body and the record written by autosave, if any. -/
structure V021Outcome where
  pack : V021PitchPack
  saved : Option (String × SavedDoc)
deriving DecidableEq, Repr

/-- `generate_pitch` of the v0.2.1 revision. -/
def generate_pitch (use_model has_key : Bool) (chat : Except String ModelJson)
    (autosaveOn : Bool) (fs : Option String) (now : Nat) (inp : IdeaInput) :
    V021Outcome :=
  let gen := try_model_generate use_model has_key chat
  let owd : List String × String × List String := match gen with
    | none => (local_outline inp.logline, local_one_pager inp.title inp.logline, local_deck)
    | some g => g
  let outline := owd.1
  let one_pager := owd.2.1
  let deck := owd.2.2
  let q := quality_gate inp outline one_pager
  let saved := autosave_pitchpack autosaveOn fs now none inp outline one_pager deck q
  { pack := { outline := outline, one_pager := one_pager, deck_outline := deck,
              quality := q, doc_id := saved.map (fun s => s.1) },
    saved := saved }

/-- The v0.2.1 `POST /api/pitch/generate` route as dispatched: it declares
no authentication dependency, so the Authorization header of the incoming
request is never read and the handler always runs. -/
def api_generate_pitch_v021 (_auth : Option String) (use_model has_key : Bool)
    (chat : Except String ModelJson) (autosaveOn : Bool) (fs : Option String)
    (now : Nat) (inp : IdeaInput) : V021Outcome :=
  generate_pitch use_model has_key chat autosaveOn fs now inp

end V021

/-! ## Store lemmas -/

/-- Looking up the merged key after `setMerge` sees the update applied to
the previous document (or to a fresh default document). -/
theorem Backend.lookup_setMerge (stages : Backend.StageStore) (k : String × String)
    (f : Backend.StageDoc → Backend.StageDoc) :
    (Backend.setMerge stages k f).lookup k = some (f (((stages.lookup k)).getD {})) := by
  induction stages with
  | nil => simp [Backend.setMerge]
  | cons e rest ih =>
    by_cases h : e.1 = k
    · simp [Backend.setMerge, h, List.lookup]
    · have h2 : (k == e.1) = false := by
        simp [beq_iff_eq]
        exact fun hk => h hk.symm
      simp [Backend.setMerge, h, List.lookup, h2, ih]

/-- `setStageField` rewrites the `stage` field of the named document as
seen by lookup. -/
theorem Stages.lookup_setStageField (db : Stages.Db) (pid v : String) :
    (Stages.setStageField db pid v).lookup pid =
      (db.lookup pid).map (fun d => { d with stage := some v }) := by
  induction db with
  | nil => simp [Stages.setStageField]
  | cons e rest ih =>
    by_cases h : e.1 = pid
    · simp [Stages.setStageField, h, List.lookup]
    · have h2 : (pid == e.1) = false := by
        simp [beq_iff_eq]
        exact fun hk => h hk.symm
      simp [Stages.setStageField, h, List.lookup, h2, ih]

/-- Membership through the insertion step of the title sort. -/
theorem Backend.mem_insertByTitle (p q : Backend.Project) (l : List Backend.Project) :
    q ∈ Backend.insertByTitle p l ↔ q = p ∨ q ∈ l := by
  induction l with
  | nil => simp [Backend.insertByTitle]
  | cons x xs ih =>
    by_cases h : p.title ≤ x.title
    · simp [Backend.insertByTitle, h]
    · simp [Backend.insertByTitle, h, ih]
      tauto

/-- The title sort neither adds nor removes projects. -/
theorem Backend.mem_orderByTitle (q : Backend.Project) (l : List Backend.Project) :
    q ∈ Backend.orderByTitle l ↔ q ∈ l := by
  induction l with
  | nil => simp [Backend.orderByTitle]
  | cons x xs ih =>
    simp [Backend.orderByTitle, Backend.mem_insertByTitle, ih]

/-! ## The fixed stage order -/

/-- The successor of each stage in the fixed linear order
outline → onepager → screenplay → script → dialogue, with `dialogue`
advancing to `"final"`. -/
def Backend.StageName.successor : Backend.StageName → String
  | .outline => "onepager"
  | .onepager => "screenplay"
  | .screenplay => "script"
  | .script => "dialogue"
  | .dialogue => "final"

/-! ## Claim theorems -/

/-- C8: for every stored project whose `owner_uid` field is absent, `None`
or the empty string, `_get_project_for_owner` returns the project to any
authenticated caller, never raising 403; the 403 is raised exactly when
`owner_uid` is a non-empty value different from the caller uid.  (An
absent field and a `None` field both deserialize to `none`.) -/
theorem C8_unowned_projects_accessible (store : Backend.ProjectStore) (pid uid : String)
    (d : Backend.ProjectData) (hlook : store.lookup pid = some d) :
    ((d.owner_uid = none ∨ d.owner_uid = some "") →
      Backend._get_project_for_owner store pid uid = .ok (Backend._doc_to_project pid d)) ∧
    (Backend._get_project_for_owner store pid uid = .error 403 ↔
      ∃ s, d.owner_uid = some s ∧ s ≠ "" ∧ s ≠ uid) := by
  constructor
  · intro h
    rcases h with h | h <;>
      simp [Backend._get_project_for_owner, hlook, Backend._doc_to_project, strOptTruthy, h]
  · cases hs : d.owner_uid with
    | none =>
      simp [Backend._get_project_for_owner, hlook, Backend._doc_to_project, strOptTruthy, hs]
    | some s =>
      by_cases hse : s = ""
      · simp [Backend._get_project_for_owner, hlook, Backend._doc_to_project, strOptTruthy,
          hs, hse]
      · by_cases hsu : s = uid
        · simp [Backend._get_project_for_owner, hlook, Backend._doc_to_project, strOptTruthy,
            hs, hse, hsu]
        · simp [Backend._get_project_for_owner, hlook, Backend._doc_to_project, strOptTruthy,
            hs, hse, hsu]

/-- Witness for C8 at a concrete one-project store owned by `"owner1"`,
queried by the different caller `"u2"`. -/
theorem C8_unowned_projects_accessible_witness :
    (((⟨⟨"Title", "A logline", none, none, none⟩, some "owner1"⟩ :
        Backend.ProjectData).owner_uid = none ∨
      ((⟨⟨"Title", "A logline", none, none, none⟩, some "owner1"⟩ :
        Backend.ProjectData)).owner_uid = some "") →
      Backend._get_project_for_owner
        [("p1", ⟨⟨"Title", "A logline", none, none, none⟩, some "owner1"⟩)] "p1" "u2" =
        .ok (Backend._doc_to_project "p1"
          ⟨⟨"Title", "A logline", none, none, none⟩, some "owner1"⟩)) ∧
    (Backend._get_project_for_owner
        [("p1", ⟨⟨"Title", "A logline", none, none, none⟩, some "owner1"⟩)] "p1" "u2" =
        .error 403 ↔
      ∃ s, ((⟨⟨"Title", "A logline", none, none, none⟩, some "owner1"⟩ :
        Backend.ProjectData)).owner_uid = some s ∧ s ≠ "" ∧ s ≠ "u2") :=
  C8_unowned_projects_accessible _ "p1" "u2" _ (by rfl)

/-- C4 counterexample: the static stage-progression map
(`next_stage_map` of `backend/app_stages.py`) does not have four
entries. -/
theorem C4_counterexample : Stages.next_stage_map.length ≠ 4 := by decide

/-- C4 (amended): the static map that drives stage progression has exactly
five entries. -/
theorem C4_map_has_five_entries : Stages.next_stage_map.length = 5 := by rfl

/-- C3: for every stage `s` among the five, a successful choose request at
stage `s` sets the stored `stage` field to the successor of `s` in the
fixed linear order (with `dialogue` advancing to `"final"`) and returns
that successor as `"next"`. -/
theorem C3_choose_advances_stage (db : Stages.Db) (payload : Stages.ChooseIn) (uid : String)
    (d : Stages.ProjRec) (hlook : db.lookup payload.project_id = some d)
    (hown : d.owner_uid = some uid) :
    (Stages.choose_stage db payload uid).response = .ok payload.stage.successor ∧
    (Stages.choose_stage db payload uid).db.lookup payload.project_id =
      some { d with stage := some payload.stage.successor } := by
  obtain ⟨pid, stage, cid, edits⟩ := payload
  cases stage <;>
    simp [Stages.choose_stage, hlook, hown, Backend.StageName.successor, Backend.StageName.str,
      Stages.next_stage_map, Stages.lookup_setStageField, List.lookup]

/-- Witness for C3: choosing at stage `screenplay` on a concrete owned
project advances its `stage` field to `"script"`. -/
theorem C3_choose_advances_stage_witness :
    (Stages.choose_stage [("p1", ⟨some "u1", some "screenplay"⟩)]
        ⟨"p1", .screenplay, "c1", none⟩ "u1").response =
      .ok (Backend.StageName.screenplay.successor) ∧
    (Stages.choose_stage [("p1", ⟨some "u1", some "screenplay"⟩)]
        ⟨"p1", .screenplay, "c1", none⟩ "u1").db.lookup "p1" =
      some ⟨some "u1", some Backend.StageName.screenplay.successor⟩ :=
  C3_choose_advances_stage [("p1", ⟨some "u1", some "screenplay"⟩)]
    ⟨"p1", .screenplay, "c1", none⟩ "u1" ⟨some "u1", some "screenplay"⟩ (by rfl) (by rfl)

/-- C6 counterexample: on the input failing every check, the quality gate
appends six reasons — one per failing check — which is impossible for a
checklist of exactly five checks. -/
theorem C6_counterexample :
    (V021.quality_gate { title := "", logline := "" } [] "").reasons.length = 6 := by
  decide

/-- C6 (amended): the quality gate is a fixed-weight point-scoring
checklist over exactly six boolean/length checks: its score is the sum of
the fixed weights of the passing checks, and its reasons are exactly the
reason strings of the failing checks, in order. -/
theorem C6_quality_gate_checklist (idea : V021.IdeaInput) (outline : List String)
    (one_pager : String) :
    (V021.quality_gate idea outline one_pager).score =
      V021.checklistScore (V021.quality_checks idea outline one_pager) ∧
    (V021.quality_gate idea outline one_pager).reasons =
      V021.checklistReasons (V021.quality_checks idea outline one_pager) ∧
    (V021.quality_checks idea outline one_pager).length = 6 := by
  simp only [V021.quality_gate, V021.quality_checks, V021.checklistScore, V021.checklistReasons]
  by_cases h1 : idea.title ≠ "" ∧ 3 ≤ idea.title.length <;>
  by_cases h2 : idea.logline ≠ "" ∧ 10 ≤ (pyWords idea.logline).length <;>
  by_cases h3 : strOptTruthy idea.genre = true <;>
  by_cases h4 : strOptTruthy idea.tone = true <;>
  by_cases h5 : 3 ≤ outline.length <;>
  by_cases h6 : 60 ≤ (pyWords one_pager).length <;>
  simp [h1, h2, h3, h4, h5, h6]

/-- C7: model responses are parsed and clamped into a fixed schema: the
candidate splitter returns at most three candidates — exactly the first
three non-empty stripped double-newline-separated paragraphs, each with
non-empty text — and the pitch normalizer truncates the outline list to at
most 8 items and the deck outline list to at most 12 items. -/
theorem C7_parse_and_clamp :
    (∀ hexes text,
      (Orchestrator._parse_three hexes text).length ≤ 3 ∧
      (Orchestrator._parse_three hexes text).map (fun c => c.text) =
        (((pySplitOn text "\n\n").map pyStrip).filter (fun p => p ≠ "")).take 3 ∧
      (∀ c ∈ Orchestrator._parse_three hexes text, c.text ≠ "")) ∧
    (∀ um hk chat o op dk, V021.try_model_generate um hk chat = some (o, op, dk) →
      o.length ≤ 8 ∧ dk.length ≤ 12) := by
  constructor
  · intro hexes text
    refine ⟨?_, ?_, ?_⟩
    · simp [Orchestrator._parse_three]
    · simp [Orchestrator._parse_three, List.map_map]
      have : ((fun c => Orchestrator.ParsedCand.text c) ∘ fun e =>
          { id := "opt" ++ toString (e.1 + 1) ++ "-" ++ hexes e.1, text := e.2 }) =
          (Prod.snd : Nat × String → String) := by
        funext e
        rfl
      rw [this, List.enum_map_snd]
    · intro c hc
      simp [Orchestrator._parse_three] at hc
      obtain ⟨i, t, hmem, rfl⟩ := hc
      simp only [List.mem_enum_iff_getElem?] at hmem
      have ht : t ∈ (((pySplitOn text "\n\n").map pyStrip).filter
          (fun p => !decide (p = ""))).take 3 :=
        List.getElem?_mem hmem
      have := List.mem_filter.mp (List.mem_of_mem_take ht)
      simpa using this.2
  · intro um hk chat o op dk h
    unfold V021.try_model_generate at h
    by_cases hc : ¬ (um = true ∧ hk = true)
    · simp [hc] at h
    · simp [hc] at h
      cases chat with
      | error e => simp at h
      | ok data =>
        simp at h
        obtain ⟨h1, h2, h3⟩ := h
        subst h1; subst h3
        constructor
        · exact le_trans (le_of_eq (congrArg List.length rfl)) (List.length_take_le 8 _)
        · exact List.length_take_le 12 _

/-- Witness for C7: the clamp bounds hold on the concrete decode whose
keys are all absent. -/
theorem C7_parse_and_clamp_witness :
    ([] : List String).length ≤ 8 ∧ ([] : List String).length ≤ 12 :=
  C7_parse_and_clamp.2 true true (.ok {}) [] "" [] (by decide)

/-- The three-iteration loop of `stage_generate` accumulates at most three
texts. -/
theorem Backend.stageGenTexts_length_le (llm : Nat → Except String (Option String)) :
    (Backend.stageGenTexts llm).length ≤ 3 := by
  have hr : List.range 3 = [0, 1, 2] := rfl
  unfold Backend.stageGenTexts
  rw [hr]
  cases h0 : llm 0 <;> cases h1 : llm 1 <;> cases h2 : llm 2 <;>
    simp [Backend.stageGenStep, h0, h1, h2]

/-- C5: for every stage-generate request, candidate generation issues at
most three chat-completion calls, all identical (same model, same system
and user message, same temperature), and a successful response carries at
most three candidates. -/
theorem C5_generation_call_bounds (env : Backend.EngineEnv) (clientReady : Bool)
    (llm : Nat → Except String (Option String)) (uuids : Nat → String)
    (projects : Backend.ProjectStore) (stages : Backend.StageStore)
    (body : Backend.StageGenerateRequest) (uid : String) :
    (Backend.stage_generate env clientReady llm uuids projects stages body uid).calls.length ≤ 3 ∧
    (∀ c₁ ∈ (Backend.stage_generate env clientReady llm uuids projects stages body uid).calls,
     ∀ c₂ ∈ (Backend.stage_generate env clientReady llm uuids projects stages body uid).calls,
      c₁ = c₂) ∧
    (∀ cs, (Backend.stage_generate env clientReady llm uuids projects stages body uid).response
      = .ok cs → cs.length ≤ 3) := by
  cases hgp : Backend._get_project_for_owner projects body.project_id uid with
  | error e =>
    simp [Backend.stage_generate, hgp]
  | ok p =>
    refine ⟨?_, ?_, ?_⟩
    · simp only [Backend.stage_generate, hgp]
      cases clientReady <;> simp
    · intro c₁ h₁ c₂ h₂
      simp only [Backend.stage_generate, hgp] at h₁ h₂
      cases clientReady with
      | false => simp at h₁
      | true =>
        simp only [if_pos rfl] at h₁ h₂
        rw [List.eq_of_mem_replicate h₁, List.eq_of_mem_replicate h₂]
    · intro cs hcs
      simp only [Backend.stage_generate, hgp] at hcs
      cases clientReady <;> simp at hcs <;>
        split at hcs <;> (try split at hcs) <;>
        first
        | (try simp only [Except.ok.injEq] at hcs
           subst hcs
           simp [List.length_map, List.enum_length, Backend.stageGenTexts_length_le llm])
        | exact absurd hcs (by simp)

/-- Witness for C5 at a concrete request: one owned project, a configured
client whose three calls all succeed. -/
theorem C5_generation_call_bounds_witness :
    (Backend.stage_generate {} true (fun _ => .ok (some "draft text")) (fun i => toString i)
      [("p1", ⟨⟨"T", "L", none, none, none⟩, some "u1"⟩)] []
      ⟨"p1", .outline, some "", some "gpt-5-mini", some "en"⟩ "u1").calls.length ≤ 3 ∧
    (∀ c₁ ∈ (Backend.stage_generate {} true (fun _ => .ok (some "draft text"))
        (fun i => toString i) [("p1", ⟨⟨"T", "L", none, none, none⟩, some "u1"⟩)] []
        ⟨"p1", .outline, some "", some "gpt-5-mini", some "en"⟩ "u1").calls,
     ∀ c₂ ∈ (Backend.stage_generate {} true (fun _ => .ok (some "draft text"))
        (fun i => toString i) [("p1", ⟨⟨"T", "L", none, none, none⟩, some "u1"⟩)] []
        ⟨"p1", .outline, some "", some "gpt-5-mini", some "en"⟩ "u1").calls,
      c₁ = c₂) ∧
    (∀ cs, (Backend.stage_generate {} true (fun _ => .ok (some "draft text"))
        (fun i => toString i) [("p1", ⟨⟨"T", "L", none, none, none⟩, some "u1"⟩)] []
        ⟨"p1", .outline, some "", some "gpt-5-mini", some "en"⟩ "u1").response = .ok cs →
      cs.length ≤ 3) :=
  C5_generation_call_bounds {} true (fun _ => .ok (some "draft text")) (fun i => toString i)
    [("p1", ⟨⟨"T", "L", none, none, none⟩, some "u1"⟩)] []
    ⟨"p1", .outline, some "", some "gpt-5-mini", some "en"⟩ "u1"

/-- C2: stored records are keyed by an owning user.  `create_project`
writes the caller uid into the stored `owner_uid`; `list_projects`
returns exactly the documents whose `owner_uid` equals the caller uid;
and a stage generate or choose request naming a project whose
`owner_uid` is a set (non-empty) value differing from the caller fails
with 403, or 404 when the project does not exist. -/
theorem C2_owner_keyed_records :
    (∀ store freshId payload uid,
      ((Backend.create_project store freshId payload uid).1.lookup freshId =
        some ⟨payload, some uid⟩) ∧
      (Backend.create_project store freshId payload uid).2.owner_uid = some uid) ∧
    (∀ store uid p, p ∈ Backend.list_projects store uid ↔
      ∃ e ∈ store, e.2.owner_uid = some uid ∧ p = Backend._doc_to_project e.1 e.2) ∧
    (∀ env clientReady llm uuids projects stages body uid,
      (∀ d s, projects.lookup body.project_id = some d → d.owner_uid = some s →
        s ≠ "" → s ≠ uid →
        (Backend.stage_generate env clientReady llm uuids projects stages body uid).response
          = .error 403) ∧
      (projects.lookup body.project_id = none →
        (Backend.stage_generate env clientReady llm uuids projects stages body uid).response
          = .error 404)) ∧
    (∀ projects stages body uid,
      (∀ d s, projects.lookup body.project_id = some d → d.owner_uid = some s →
        s ≠ "" → s ≠ uid →
        (Backend.stage_choose projects stages body uid).response = .error 403) ∧
      (projects.lookup body.project_id = none →
        (Backend.stage_choose projects stages body uid).response = .error 404)) := by
  refine ⟨?_, ?_, ?_, ?_⟩
  · intro store freshId payload uid
    constructor
    · simp [Backend.create_project, List.lookup]
    · rfl
  · intro store uid p
    simp only [Backend.list_projects, Backend.mem_orderByTitle, List.mem_map, List.mem_filter]
    constructor
    · rintro ⟨e, ⟨he, hu⟩, rfl⟩
      exact ⟨e, he, by simpa using hu, rfl⟩
    · rintro ⟨e, he, hu, rfl⟩
      exact ⟨e, ⟨he, by simpa using hu⟩, rfl⟩
  · intro env clientReady llm uuids projects stages body uid
    constructor
    · intro d s hl ho hs hu
      have h403 : Backend._get_project_for_owner projects body.project_id uid = .error 403 := by
        simp [Backend._get_project_for_owner, hl, Backend._doc_to_project, strOptTruthy,
          ho, hs, hu]
      simp [Backend.stage_generate, h403]
    · intro hl
      have h404 : Backend._get_project_for_owner projects body.project_id uid = .error 404 := by
        simp [Backend._get_project_for_owner, hl]
      simp [Backend.stage_generate, h404]
  · intro projects stages body uid
    constructor
    · intro d s hl ho hs hu
      have h403 : Backend._get_project_for_owner projects body.project_id uid = .error 403 := by
        simp [Backend._get_project_for_owner, hl, Backend._doc_to_project, strOptTruthy,
          ho, hs, hu]
      simp [Backend.stage_choose, h403]
    · intro hl
      have h404 : Backend._get_project_for_owner projects body.project_id uid = .error 404 := by
        simp [Backend._get_project_for_owner, hl]
      simp [Backend.stage_choose, h404]

/-- Witness for C2: a foreign-owned project rejected with 403 on stage
generation, and a missing project rejected with 404 on stage choice. -/
theorem C2_owner_keyed_records_witness :
    (Backend.stage_generate {} false (fun _ => .error "e") (fun _ => "u")
      [("p1", ⟨⟨"T", "L", none, none, none⟩, some "owner1"⟩)] []
      ⟨"p1", .outline, some "", some "gpt-5-mini", some "en"⟩ "intruder").response
        = .error 403 ∧
    (Backend.stage_choose [] [] ⟨"p1", .outline, "c1", some ""⟩ "u1").response = .error 404 :=
  ⟨(C2_owner_keyed_records.2.2.1 {} false (fun _ => .error "e") (fun _ => "u")
      [("p1", ⟨⟨"T", "L", none, none, none⟩, some "owner1"⟩)] []
      ⟨"p1", .outline, some "", some "gpt-5-mini", some "en"⟩ "intruder").1
      ⟨⟨"T", "L", none, none, none⟩, some "owner1"⟩ "owner1" rfl rfl
      (by decide) (by decide),
   (C2_owner_keyed_records.2.2.2 [] [] ⟨"p1", .outline, "c1", some ""⟩ "u1").2 rfl⟩

/-- C10: for a caller that passes the ownership check, `stage_choose`
fails with 400 when no generation document exists for the stage and with
404 when `chosen_id` matches no stored candidate, leaving the stage store
unchanged in both cases; on success it stores as chosen text the stripped
edits when `edits` is a non-empty string and otherwise the chosen
candidate's text, and leaves `last_generated` unchanged. -/
theorem C10_stage_choose_behavior
    (projects : Backend.ProjectStore) (stages : Backend.StageStore)
    (body : Backend.StageChooseRequest) (uid : String) (p : Backend.Project)
    (hok : Backend._get_project_for_owner projects body.project_id uid = .ok p) :
    (stages.lookup (body.project_id, body.stage.str) = none →
      (Backend.stage_choose projects stages body uid).response = .error 400 ∧
      (Backend.stage_choose projects stages body uid).stages = stages) ∧
    (∀ d, stages.lookup (body.project_id, body.stage.str) = some d →
      d.last_generated.find? (fun c => c.id == body.chosen_id) = none →
      (Backend.stage_choose projects stages body uid).response = .error 404 ∧
      (Backend.stage_choose projects stages body uid).stages = stages) ∧
    (∀ d c, stages.lookup (body.project_id, body.stage.str) = some d →
      d.last_generated.find? (fun cc => cc.id == body.chosen_id) = some c →
      (Backend.stage_choose projects stages body uid).response =
        .ok (body.stage, body.chosen_id) ∧
      ∃ dNew, (Backend.stage_choose projects stages body uid).stages.lookup
          (body.project_id, body.stage.str) = some dNew ∧
        dNew.last_generated = d.last_generated ∧
        (∀ e, body.edits = some e → e ≠ "" →
          dNew.chosen = some ⟨body.chosen_id, pyStrip e, c.meta⟩) ∧
        ((body.edits = none ∨ body.edits = some "") →
          dNew.chosen = some ⟨body.chosen_id, c.text, c.meta⟩)) := by
  refine ⟨?_, ?_, ?_⟩
  · intro hmiss
    constructor <;> simp [Backend.stage_choose, hok, hmiss]
  · intro d hl hf
    constructor <;> simp [Backend.stage_choose, hok, hl, hf]
  · intro d c hl hf
    constructor
    · simp [Backend.stage_choose, hok, hl, hf]
    · refine Exists.intro
        { d with chosen := some (Backend.ChosenDoc.mk body.chosen_id
          (if strOptTruthy body.edits then pyStrip (body.edits.getD "") else c.text)
          c.meta) } ⟨?_, rfl, ?_, ?_⟩
      · simp only [Backend.stage_choose, hok, hl, hf]
        rw [Backend.lookup_setMerge, hl]
        simp
      · intro e he hne
        simp [he, strOptTruthy, hne]
      · rintro (he | he) <;> simp [he, strOptTruthy]

/-- Witness for C10: choosing candidate `"c1"` with whitespace-padded
edits on a concrete stage document stores the stripped edits and keeps
the candidate list. -/
theorem C10_stage_choose_behavior_witness :
    (Backend.stage_choose [("p1", ⟨⟨"T", "L", none, none, none⟩, some "u1"⟩)]
        [(("p1", "outline"),
          ⟨[⟨"c1", "text A", some ⟨some "gpt-5-mini"⟩⟩], some "gpt-5-mini", "en", "", none⟩)]
        ⟨"p1", .outline, "c1", some " edited "⟩ "u1").response = .ok (.outline, "c1") ∧
    ∃ dNew, (Backend.stage_choose [("p1", ⟨⟨"T", "L", none, none, none⟩, some "u1"⟩)]
        [(("p1", "outline"),
          ⟨[⟨"c1", "text A", some ⟨some "gpt-5-mini"⟩⟩], some "gpt-5-mini", "en", "", none⟩)]
        ⟨"p1", .outline, "c1", some " edited "⟩ "u1").stages.lookup ("p1", "outline") =
          some dNew ∧
      dNew.last_generated = [⟨"c1", "text A", some ⟨some "gpt-5-mini"⟩⟩] ∧
      (∀ e, (some " edited " : Option String) = some e → e ≠ "" →
        dNew.chosen = some ⟨"c1", pyStrip e, some ⟨some "gpt-5-mini"⟩⟩) ∧
      (((some " edited " : Option String) = none ∨
          (some " edited " : Option String) = some "") →
        dNew.chosen = some ⟨"c1", "text A", some ⟨some "gpt-5-mini"⟩⟩) :=
  (C10_stage_choose_behavior [("p1", ⟨⟨"T", "L", none, none, none⟩, some "u1"⟩)]
      [(("p1", "outline"),
        ⟨[⟨"c1", "text A", some ⟨some "gpt-5-mini"⟩⟩], some "gpt-5-mini", "en", "", none⟩)]
      ⟨"p1", .outline, "c1", some " edited "⟩ "u1"
      (Backend._doc_to_project "p1" ⟨⟨"T", "L", none, none, none⟩, some "u1"⟩)
      (by rfl)).2.2
    ⟨[⟨"c1", "text A", some ⟨some "gpt-5-mini"⟩⟩], some "gpt-5-mini", "en", "", none⟩
    ⟨"c1", "text A", some ⟨some "gpt-5-mini"⟩⟩ (by rfl) (by rfl)

/-- The demo text never equals the `"(empty)"` marker, whatever the stage
string and project title. -/
theorem demoText_ne_empty_marker (s t : String) :
    ("[DEMO] " ++ s ++ " draft for \x27" ++ t ++
      "\x27 — refine once LLM key is set.") ≠ "(empty)" := by
  intro h
  have hlen := congrArg String.length h
  have h1 : (" draft for \x27" : String).length = 12 := rfl
  have h2 : ("\x27 — refine once LLM key is set." : String).length = 31 := rfl
  have h3 : ("(empty)" : String).length = 7 := rfl
  simp [String.length_append, h1, h2, h3] at hlen

/-- C9 counterexample: two runs of the no-client stage generation on the
same request, differing only in the fresh-uuid draw, return different
responses — the demo candidate is not a fixed value of the stage name and
project title, because its id is a fresh uuid. -/
theorem C9_counterexample :
    (Backend.stage_generate {} false (fun _ => .error "no client") (fun _ => "uuid-a")
      [("p1", ⟨⟨"T", "L", none, none, none⟩, some "u1"⟩)] []
      ⟨"p1", .outline, some "", some "gpt-5-mini", some "en"⟩ "u1").response ≠
    (Backend.stage_generate {} false (fun _ => .error "no client") (fun _ => "uuid-b")
      [("p1", ⟨⟨"T", "L", none, none, none⟩, some "u1"⟩)] []
      ⟨"p1", .outline, some "", some "gpt-5-mini", some "en"⟩ "u1").response := by
  decide

/-- C9 (amended): with no LLM client, generation still succeeds and its
content is deterministic.  The `backend/app.py` pitch response is exactly
the fixed template applied to the request's title, logline, genre and
tone, with no chat call issued; the v0.2.1 pitch content fields (outline,
one-pager, deck outline, quality) are the local templates of the
request; and stage generation returns one demo candidate whose text is a
fixed function of the stage name and project title — but whose id is the
fresh uuid draw (and the v0.2.1 `doc_id` the fresh autosave id), which
vary between runs. -/
theorem C9_fallback_deterministic_content :
    (∀ env llmJson payload,
      (Backend.generate_pitch env false llmJson payload).response =
        .ok (Backend.fallbackPitch (pyStrip payload.title) (pyStrip payload.logline)
          (pyStrip (pyOrStr payload.genre "Drama"))
          (pyStrip (pyOrStr payload.tone "Grounded, character-driven"))) ∧
      (Backend.generate_pitch env false llmJson payload).calls = []) ∧
    (∀ um hk chat autosaveOn fs now inp, ¬ (um = true ∧ hk = true) →
      ((V021.generate_pitch um hk chat autosaveOn fs now inp).pack.outline =
          V021.local_outline inp.logline ∧
        (V021.generate_pitch um hk chat autosaveOn fs now inp).pack.one_pager =
          V021.local_one_pager inp.title inp.logline ∧
        (V021.generate_pitch um hk chat autosaveOn fs now inp).pack.deck_outline =
          V021.local_deck ∧
        (V021.generate_pitch um hk chat autosaveOn fs now inp).pack.quality =
          V021.quality_gate inp (V021.local_outline inp.logline)
            (V021.local_one_pager inp.title inp.logline))) ∧
    (∀ env llm uuids projects stages body uid p,
      Backend._get_project_for_owner projects body.project_id uid = .ok p →
      (Backend.stage_generate env false llm uuids projects stages body uid).response =
        .ok [⟨uuids 0, "[DEMO] " ++ body.stage.str ++ " draft for \x27" ++ p.title ++
          "\x27 — refine once LLM key is set.", some ⟨body.engine⟩⟩]) := by
  refine ⟨?_, ?_, ?_⟩
  · intro env llmJson payload
    constructor <;> simp [Backend.generate_pitch]
  · intro um hk chat autosaveOn fs now inp h
    have hnone : V021.try_model_generate um hk chat = none := by
      simp [V021.try_model_generate, h]
    refine ⟨?_, ?_, ?_, ?_⟩ <;> simp [V021.generate_pitch, hnone]
  · intro env llm uuids projects stages body uid p hok
    simp only [Backend.stage_generate, hok]
    simp [demoText_ne_empty_marker]

/-- Witness for C9: the v0.2.1 content equalities with the model switch
off, and the single demo candidate of a concrete no-client stage run. -/
theorem C9_fallback_deterministic_content_witness :
    ((V021.generate_pitch false false (.error "x") true (some "d1") 5
        ⟨"T", "L", none, none⟩).pack.outline = V021.local_outline "L" ∧
      (V021.generate_pitch false false (.error "x") true (some "d1") 5
        ⟨"T", "L", none, none⟩).pack.one_pager = V021.local_one_pager "T" "L" ∧
      (V021.generate_pitch false false (.error "x") true (some "d1") 5
        ⟨"T", "L", none, none⟩).pack.deck_outline = V021.local_deck ∧
      (V021.generate_pitch false false (.error "x") true (some "d1") 5
        ⟨"T", "L", none, none⟩).pack.quality =
        V021.quality_gate ⟨"T", "L", none, none⟩ (V021.local_outline "L")
          (V021.local_one_pager "T" "L")) ∧
    (Backend.stage_generate {} false (fun _ => .error "no client") (fun _ => "uuid-a")
        [("p1", ⟨⟨"T", "L", none, none, none⟩, some "u1"⟩)] []
        ⟨"p1", .outline, some "", some "gpt-5-mini", some "en"⟩ "u1").response =
      .ok [⟨"uuid-a", "[DEMO] outline draft for \x27T\x27 — refine once LLM key is set.",
        some ⟨some "gpt-5-mini"⟩⟩] :=
  ⟨C9_fallback_deterministic_content.2.1 false false (.error "x") true (some "d1") 5
      ⟨"T", "L", none, none⟩ (by decide),
   C9_fallback_deterministic_content.2.2 {} (fun _ => .error "no client") (fun _ => "uuid-a")
      [("p1", ⟨⟨"T", "L", none, none, none⟩, some "u1"⟩)] []
      ⟨"p1", .outline, some "", some "gpt-5-mini", some "en"⟩ "u1"
      (Backend._doc_to_project "p1" ⟨⟨"T", "L", none, none, none⟩, some "u1"⟩) (by rfl)⟩

/-- C1 counterexample: the v0.2.1 pitch-generation endpoint, on a request
with no Authorization header at all, still generates material and writes
an autosave record instead of failing with 401 — the operation is not
gated by bearer-token verification. -/
theorem C1_counterexample :
    (V021.api_generate_pitch_v021 none false false (.error "x") true (some "doc1") 7
      ⟨"T", "L", none, none⟩).pack.outline = V021.local_outline "L" ∧
    (V021.api_generate_pitch_v021 none false false (.error "x") true (some "doc1") 7
      ⟨"T", "L", none, none⟩).saved.isSome = true := by
  decide

/-- C1 (amended): in `backend/app.py` every API operation that generates
material or reads/writes stored records is gated by `get_uid`: a missing
header, a header whose lowercasing does not start with `"bearer "`, or a
token that fails verification yields 401 — and then each such endpoint
answers 401 with the stores untouched and no chat-completion call made —
while a successful `get_uid` returns exactly the uid the verifier decodes
from the header token.  (The v0.2.1 revision's pitch endpoint performs no
such check, and the prefix test is case-insensitive rather than literal.) -/
theorem C1_gated_backend :
    (∀ verify, Backend.get_uid verify none = .error 401) ∧
    (∀ verify a, ¬ pyStartsWith (pyLower a) "bearer " = true →
      Backend.get_uid verify (some a) = .error 401) ∧
    (∀ verify a, verify (Backend.headerToken a) = none →
      Backend.get_uid verify (some a) = .error 401) ∧
    (∀ verify auth uid, Backend.get_uid verify auth = .ok uid →
      ∃ a, auth = some a ∧ pyStartsWith (pyLower a) "bearer " = true ∧
        verify (Backend.headerToken a) = some uid) ∧
    (∀ verify auth st env clientReady llmJson payload freshId pIn llm uuids genBody chooseBody,
      Backend.get_uid verify auth = .error 401 →
      Backend.api_list_projects verify auth st = ⟨.error 401, st, []⟩ ∧
      Backend.api_create_project verify auth freshId pIn st = ⟨.error 401, st, []⟩ ∧
      Backend.api_generate_pitch verify auth env clientReady llmJson payload st =
        ⟨.error 401, st, []⟩ ∧
      Backend.api_stage_generate verify auth env clientReady llm uuids genBody st =
        ⟨.error 401, st, []⟩ ∧
      Backend.api_stage_choose verify auth chooseBody st = ⟨.error 401, st, []⟩) := by
  refine ⟨?_, ?_, ?_, ?_, ?_⟩
  · intro verify
    rfl
  · intro verify a h
    simp [Backend.get_uid, h]
  · intro verify a h
    by_cases hs : pyStartsWith (pyLower a) "bearer " = true
    · simp [Backend.get_uid, hs, Backend.headerToken] at h ⊢
      simp [h]
    · simp [Backend.get_uid, hs]
  · intro verify auth uid h
    cases auth with
    | none => simp [Backend.get_uid] at h
    | some a =>
      by_cases hs : pyStartsWith (pyLower a) "bearer " = true
      · refine ⟨a, rfl, hs, ?_⟩
        simp [Backend.get_uid, hs] at h
        cases hv : verify (Backend.headerToken a) with
        | none => simp [Backend.headerToken] at h hv; simp [hv] at h
        | some u =>
          simp [Backend.headerToken] at h hv
          simp [hv] at h
          simp [h]
      · simp [Backend.get_uid, hs] at h
  · intro verify auth st env clientReady llmJson payload freshId pIn llm uuids genBody chooseBody h
    refine ⟨?_, ?_, ?_, ?_, ?_⟩ <;>
      simp [Backend.api_list_projects, Backend.api_create_project, Backend.api_generate_pitch,
        Backend.api_stage_generate, Backend.api_stage_choose, h]

/-- Witness for C1: a header that is not a bearer header is rejected by
all five data endpoints of `backend/app.py`, leaving the stores untouched
and issuing no call. -/
theorem C1_gated_backend_witness :
    Backend.api_list_projects (fun _ => none) (some "Token x") ⟨[], []⟩ =
      ⟨.error 401, ⟨[], []⟩, []⟩ ∧
    Backend.api_create_project (fun _ => none) (some "Token x") "f1"
      ⟨"T", "L", none, none, none⟩ ⟨[], []⟩ = ⟨.error 401, ⟨[], []⟩, []⟩ ∧
    Backend.api_generate_pitch (fun _ => none) (some "Token x") {} true (.error "e")
      ⟨"T", "L", none, none, some "gpt-5-mini", some "en"⟩ ⟨[], []⟩ =
      ⟨.error 401, ⟨[], []⟩, []⟩ ∧
    Backend.api_stage_generate (fun _ => none) (some "Token x") {} true
      (fun _ => .error "e") (fun _ => "u")
      ⟨"p1", .outline, some "", some "gpt-5-mini", some "en"⟩ ⟨[], []⟩ =
      ⟨.error 401, ⟨[], []⟩, []⟩ ∧
    Backend.api_stage_choose (fun _ => none) (some "Token x")
      ⟨"p1", .outline, "c1", some ""⟩ ⟨[], []⟩ = ⟨.error 401, ⟨[], []⟩, []⟩ :=
  C1_gated_backend.2.2.2.2 (fun _ => none) (some "Token x") ⟨[], []⟩ {} true (.error "e")
    ⟨"T", "L", none, none, some "gpt-5-mini", some "en"⟩ "f1" ⟨"T", "L", none, none, none⟩
    (fun _ => .error "e") (fun _ => "u")
    ⟨"p1", .outline, some "", some "gpt-5-mini", some "en"⟩
    ⟨"p1", .outline, "c1", some ""⟩ (by rfl)

end Manthan
